import Mathlib

/-!
# Consensus directory subsystem: shallow embedding and verification

This file embeds the consensus-handling core of `src/or/networkstatus.c` and
the microdescriptor cache (`microdesc.c`) in Lean and proves or refutes the
stated properties of the quorum checker, the consensus install protocol, the
download scheduler's fetch-time computation, the microdescriptor cache
rebuild, and the v2 status cache.

Conventions of the embedding:
* digests, addresses and document bodies are abstracted as natural numbers;
* `time_t` values are `Int` (C `time_t` is a signed integer type);
* C integer division on nonnegative longs is `Nat` division, and on possibly
  negative longs it is `Int.tdiv` (truncation toward zero, as in C99);
* external collaborators (certificate store, parser, transport, options) are
  supplied as explicit environment records of functions and values.
-/

namespace TorNS

/-! ## Quorum checker (`networkstatus_check_consensus_signature`)

One `Sig` models a `document_signature_t`: the identity digest and signing key
digest it names, whether `sig->signature` is non-NULL, and the two terminal
flags `good_signature` / `bad_signature` as they stand when the checker is
entered (the checker skips signatures that are already classified). -/

structure Sig where
  identity : Nat
  signingKeyDigest : Nat
  hasSignature : Bool
  goodSignature : Bool
  badSignature : Bool
deriving DecidableEq

/-- A `networkstatus_voter_info_t`: identity digest plus signature list. -/
structure Voter where
  identity : Nat
  sigs : List Sig
deriving DecidableEq

/-- The external certificate store and verifier, as consumed by the checker:
`isV3Auth` is `trusteddirserver_get_by_v3_auth_digest(...) != NULL`;
`certOk id kd` is `cert != NULL && cert->expires >= now` for
`authority_cert_get_by_digests(id, kd)`;
`dlUncertain` is `authority_cert_dl_looks_uncertain`;
`checkSig` is the outcome of `networkstatus_check_document_signature` on a
signature it is given: `none` for a negative return (pre-check failure),
`some true` when the signature verifies (`good_signature` is set),
`some false` when it does not (`bad_signature` is set). -/
structure CertEnv where
  isV3Auth : Nat → Bool
  certOk : Nat → Nat → Bool
  dlUncertain : Nat → Bool
  checkSig : Sig → Option Bool

/-- What the per-signature body of the voter loop contributes for one
signature: a `good_here` / `bad_here` / `missing_key_here` (with its
`dl_failed_key_here` companion) / `unknown_here` increment, or nothing. -/
inductive SigOutcome where
  | countGood
  | countBad
  | missingKey (dlFailed : Bool)
  | unknownAuth
  | skip
deriving DecidableEq, BEq

/-- The per-signature branch structure of the voter loop in
`networkstatus_check_consensus_signature`: an as-yet-unclassified signature
with bytes is looked up (unknown authority first, then missing/expired cert,
then an actual verification attempt whose pre-check failure also counts as
missing); after that, a signature flagged good counts toward `good_here` and
one flagged bad toward `bad_here`. -/
def sigOutcome (env : CertEnv) (sig : Sig) : SigOutcome :=
  if !sig.goodSignature && !sig.badSignature && sig.hasSignature then
    if !(env.isV3Auth sig.identity) then
      SigOutcome.unknownAuth
    else if !(env.certOk sig.identity sig.signingKeyDigest) then
      SigOutcome.missingKey (env.dlUncertain sig.identity)
    else
      match env.checkSig sig with
      | none => SigOutcome.missingKey (env.dlUncertain sig.identity)
      | some true => SigOutcome.countGood
      | some false => SigOutcome.countBad
  else if sig.goodSignature then SigOutcome.countGood
  else if sig.badSignature then SigOutcome.countBad
  else SigOutcome.skip

def isGoodOutcome : SigOutcome → Bool
  | SigOutcome.countGood => true
  | _ => false

def isBadOutcome : SigOutcome → Bool
  | SigOutcome.countBad => true
  | _ => false

def isMissingOutcome : SigOutcome → Bool
  | SigOutcome.missingKey _ => true
  | _ => false

def isMissingDlFailed : SigOutcome → Bool
  | SigOutcome.missingKey b => b
  | _ => false

def isUnknownOutcome : SigOutcome → Bool
  | SigOutcome.unknownAuth => true
  | _ => false

/-- The `good_here` counter for one voter. -/
def goodHere (env : CertEnv) (v : Voter) : Nat :=
  v.sigs.countP (fun s => isGoodOutcome (sigOutcome env s))

/-- The `bad_here` counter for one voter. -/
def badHere (env : CertEnv) (v : Voter) : Nat :=
  v.sigs.countP (fun s => isBadOutcome (sigOutcome env s))

/-- The `missing_key_here` counter for one voter. -/
def missingHere (env : CertEnv) (v : Voter) : Nat :=
  v.sigs.countP (fun s => isMissingOutcome (sigOutcome env s))

/-- The `dl_failed_key_here` counter for one voter. -/
def dlFailedHere (env : CertEnv) (v : Voter) : Nat :=
  v.sigs.countP (fun s => isMissingDlFailed (sigOutcome env s))

/-- The `unknown_here` counter for one voter. -/
def unknownHere (env : CertEnv) (v : Voter) : Nat :=
  v.sigs.countP (fun s => isUnknownOutcome (sigOutcome env s))

/-- The bucket a voter is counted in. -/
inductive Bucket where
  | good
  | bad
  | missingKey
  | unknownAuth
  | noSig
deriving DecidableEq, BEq

/-- How `networkstatus_check_consensus_signature` classifies one voter after
its signature loop: the `if (good_here) ... else if (bad_here) ... else if
(missing_key_here) ... else if (unknown_here) ... else ...` chain. -/
def voterBucket (env : CertEnv) (v : Voter) : Bucket :=
  if 0 < goodHere env v then Bucket.good
  else if 0 < badHere env v then Bucket.bad
  else if 0 < missingHere env v then Bucket.missingKey
  else if 0 < unknownHere env v then Bucket.unknownAuth
  else Bucket.noSig

/-- Voter classification in the priority order stated by the spec (unknown
authority, then missing cert, then bad, then good, then no signature).  This
definition follows the spec's words, for comparison with `voterBucket`, which
follows the source. -/
def voterBucketClaimOrder (env : CertEnv) (v : Voter) : Bucket :=
  if 0 < unknownHere env v then Bucket.unknownAuth
  else if 0 < missingHere env v then Bucket.missingKey
  else if 0 < badHere env v then Bucket.bad
  else if 0 < goodHere env v then Bucket.good
  else Bucket.noSig

/-- `n_good`: voters counted in the good bucket. -/
def nGood (env : CertEnv) (voters : List Voter) : Nat :=
  voters.countP (fun v => voterBucket env v == Bucket.good)

/-- `n_bad`. -/
def nBad (env : CertEnv) (voters : List Voter) : Nat :=
  voters.countP (fun v => voterBucket env v == Bucket.bad)

/-- `n_missing_key`. -/
def nMissingKey (env : CertEnv) (voters : List Voter) : Nat :=
  voters.countP (fun v => voterBucket env v == Bucket.missingKey)

/-- `n_dl_failed_key`: missing-cert voters whose `dl_failed_key_here` was
nonzero. -/
def nDlFailedKey (env : CertEnv) (voters : List Voter) : Nat :=
  voters.countP
    (fun v => voterBucket env v == Bucket.missingKey && 0 < dlFailedHere env v)

/-- `n_required = n_v3_authorities/2 + 1` (C integer division). -/
def nRequired (nAuthorities : Nat) : Nat :=
  nAuthorities / 2 + 1

/-- Return value of `networkstatus_check_consensus_signature`: `1` when every
recognized authority signed (`all_good`), `0` when there are enough good
signatures (`enough`), `-1` when more certificates might give enough
(`need_more_certs`), `-2` otherwise (`insufficient`).  `nAuthorities` is
`get_n_authorities(V3_DIRINFO)`. -/
def networkstatus_check_consensus_signature
    (env : CertEnv) (nAuthorities : Nat) (voters : List Voter) : Int :=
  if nGood env voters = nAuthorities then 1
  else if nRequired nAuthorities ≤ nGood env voters then 0
  else if nRequired nAuthorities ≤ nGood env voters + nMissingKey env voters
    then -1
  else -2

/-- The claim's characterization of the `need_more_certs` return: the result
is `-1` exactly when the `all_good`/`enough` conditions fail and both
`n_good + n_missing ≥ Q` and `n_good + n_missing - n_missing_with_failed_dl ≥ Q`
hold.  Stated from the spec's words, for comparison with the source. -/
def needMoreCertsClaim (env : CertEnv) (nAuthorities : Nat)
    (voters : List Voter) : Prop :=
  networkstatus_check_consensus_signature env nAuthorities voters = -1 ↔
    (nGood env voters ≠ nAuthorities ∧
     nGood env voters < nRequired nAuthorities ∧
     nRequired nAuthorities ≤ nGood env voters + nMissingKey env voters ∧
     nRequired nAuthorities ≤
       nGood env voters + nMissingKey env voters - nDlFailedKey env voters)

instance (env : CertEnv) (nAuthorities : Nat) (voters : List Voter) :
    Decidable (needMoreCertsClaim env nAuthorities voters) := by
  unfold needMoreCertsClaim
  infer_instance

/-- A certificate store for counterexamples: every identity recognized, no
certificate present, every certificate download looks uncertain. -/
def cexEnvMissingUncertain : CertEnv :=
  { isV3Auth := fun _ => true
    certOk := fun _ _ => false
    dlUncertain := fun _ => true
    checkSig := fun _ => none }

/-- A single not-yet-classified signature by identity 0 with signing key 0. -/
def cexSigUnchecked : Sig :=
  { identity := 0
    signingKeyDigest := 0
    hasSignature := true
    goodSignature := false
    badSignature := false }

/-- C1: with one recognized authority (`Q = 1`) and a single voter whose only
signature lacks a certificate and whose certificate download looks uncertain,
the source returns `-1` (`need_more_certs`) although
`n_good + n_missing - n_missing_with_failed_dl = 0 < Q`: the claimed second
condition is not part of the source's return decision (it only selects the
log severity), so the claimed equivalence fails. -/
theorem C1_counterexample :
    ¬ needMoreCertsClaim cexEnvMissingUncertain 1
        [{ identity := 0, sigs := [cexSigUnchecked] }] := by
  decide

/-- C1 (amended): the checker returns `need_more_certs` (`-1`) exactly when
the `all_good` and `enough` conditions fail and `n_good + n_missing ≥ Q`; the
count of missing-cert voters with failed downloads does not enter the
decision. -/
theorem C1_need_more_certs_iff (env : CertEnv) (nAuthorities : Nat)
    (voters : List Voter) :
    networkstatus_check_consensus_signature env nAuthorities voters = -1 ↔
      (nGood env voters ≠ nAuthorities ∧
       nGood env voters < nRequired nAuthorities ∧
       nRequired nAuthorities ≤ nGood env voters + nMissingKey env voters) := by
  unfold networkstatus_check_consensus_signature
  split_ifs with h1 h2 h3 <;> simp <;> omega

/-- The claim's characterization of `all_good` and `enough`: `all_good` iff
`n_good = |A|`, and `enough` iff `n_good < |A|` and `n_good ≥ Q`.  Stated
from the spec's words, for comparison with the source. -/
def enoughClaim (env : CertEnv) (nAuthorities : Nat)
    (voters : List Voter) : Prop :=
  (networkstatus_check_consensus_signature env nAuthorities voters = 1 ↔
    nGood env voters = nAuthorities) ∧
  (networkstatus_check_consensus_signature env nAuthorities voters = 0 ↔
    (nGood env voters < nAuthorities ∧
     nRequired nAuthorities ≤ nGood env voters))

instance (env : CertEnv) (nAuthorities : Nat) (voters : List Voter) :
    Decidable (enoughClaim env nAuthorities voters) := by
  unfold enoughClaim
  infer_instance

/-- A certificate store for counterexamples in which identity 0 is the only
recognized authority, its certificate is present, and every signature it is
asked about verifies. -/
def cexEnvAllVerify : CertEnv :=
  { isV3Auth := fun i => i == 0
    certOk := fun _ _ => true
    dlUncertain := fun _ => false
    checkSig := fun _ => some true }

/-- C2: with one recognized authority and a consensus listing that authority
as two separate voters, each with a verifying signature, `n_good = 2 > 1 = |A|`
and the source returns `0` (`enough`, since `n_good ≠ |A|` and `n_good ≥ Q`),
but the claim's `n_good < |A|` fails: the source tests `n_good == |A|`, not
`n_good ≥ |A|`, before the `enough` test. -/
theorem C2_counterexample :
    ¬ enoughClaim cexEnvAllVerify 1
        [{ identity := 0, sigs := [cexSigUnchecked] },
         { identity := 0, sigs := [cexSigUnchecked] }] := by
  decide

/-- C2 (amended): `all_good` (`1`) is returned iff `n_good = |A|`, and
`enough` (`0`) iff `n_good ≠ |A|` and `n_good ≥ Q`; moreover `Q = ⌊|A|/2⌋+1`
gives `Q = 1` for `|A| = 1` and `Q = 5` for `|A| = 9`. -/
theorem C2_quorum_thresholds (env : CertEnv) (nAuthorities : Nat)
    (voters : List Voter) :
    (networkstatus_check_consensus_signature env nAuthorities voters = 1 ↔
      nGood env voters = nAuthorities) ∧
    (networkstatus_check_consensus_signature env nAuthorities voters = 0 ↔
      (nGood env voters ≠ nAuthorities ∧
       nRequired nAuthorities ≤ nGood env voters)) ∧
    nRequired 1 = 1 ∧ nRequired 9 = 5 := by
  refine ⟨?_, ?_, rfl, rfl⟩ <;>
    · unfold networkstatus_check_consensus_signature
      split_ifs <;> simp <;> omega

/-- A certificate store for counterexamples in which identity 0 is recognized,
only signing key 1 has a certificate, and the one verifiable signature fails
verification. -/
def cexEnvBadAndMissing : CertEnv :=
  { isV3Auth := fun _ => true
    certOk := fun _ kd => kd == 1
    dlUncertain := fun _ => false
    checkSig := fun s => if s.signingKeyDigest == 1 then some false else none }

/-- A voter with two signatures: one that verifies as bad (signing key 1) and
one whose certificate is missing (signing key 2). -/
def cexVoterBadAndMissing : Voter :=
  { identity := 0
    sigs :=
      [{ identity := 0, signingKeyDigest := 1, hasSignature := true,
         goodSignature := false, badSignature := false },
       { identity := 0, signingKeyDigest := 2, hasSignature := true,
         goodSignature := false, badSignature := false }] }

/-- C3: a voter with one bad signature and one missing-cert signature is
counted in the `bad` bucket by the source (`good_here` and `bad_here` are
tested before `missing_key_here`), while the claimed priority order (unknown,
missing cert, bad, good, no signature) would count it as missing cert. -/
theorem C3_counterexample :
    voterBucket cexEnvBadAndMissing cexVoterBadAndMissing ≠
      voterBucketClaimOrder cexEnvBadAndMissing cexVoterBadAndMissing ∧
    voterBucket cexEnvBadAndMissing cexVoterBadAndMissing = Bucket.bad ∧
    voterBucketClaimOrder cexEnvBadAndMissing cexVoterBadAndMissing =
      Bucket.missingKey := by
  decide

/-- C3 (amended): every voter is counted in exactly one bucket, chosen as the
first matching bucket in the priority order good (some signature of the voter
verifies), bad, missing cert, unknown authority, no signature. -/
theorem C3_voter_bucket_priority (env : CertEnv) (v : Voter) :
    (voterBucket env v = Bucket.good ↔
      (∃ s ∈ v.sigs, isGoodOutcome (sigOutcome env s) = true)) ∧
    (voterBucket env v = Bucket.bad ↔
      (¬ (∃ s ∈ v.sigs, isGoodOutcome (sigOutcome env s) = true) ∧
       (∃ s ∈ v.sigs, isBadOutcome (sigOutcome env s) = true))) ∧
    (voterBucket env v = Bucket.missingKey ↔
      (¬ (∃ s ∈ v.sigs, isGoodOutcome (sigOutcome env s) = true) ∧
       ¬ (∃ s ∈ v.sigs, isBadOutcome (sigOutcome env s) = true) ∧
       (∃ s ∈ v.sigs, isMissingOutcome (sigOutcome env s) = true))) ∧
    (voterBucket env v = Bucket.unknownAuth ↔
      (¬ (∃ s ∈ v.sigs, isGoodOutcome (sigOutcome env s) = true) ∧
       ¬ (∃ s ∈ v.sigs, isBadOutcome (sigOutcome env s) = true) ∧
       ¬ (∃ s ∈ v.sigs, isMissingOutcome (sigOutcome env s) = true) ∧
       (∃ s ∈ v.sigs, isUnknownOutcome (sigOutcome env s) = true))) ∧
    (voterBucket env v = Bucket.noSig ↔
      (¬ (∃ s ∈ v.sigs, isGoodOutcome (sigOutcome env s) = true) ∧
       ¬ (∃ s ∈ v.sigs, isBadOutcome (sigOutcome env s) = true) ∧
       ¬ (∃ s ∈ v.sigs, isMissingOutcome (sigOutcome env s) = true) ∧
       ¬ (∃ s ∈ v.sigs, isUnknownOutcome (sigOutcome env s) = true))) := by
  have hg : 0 < goodHere env v ↔
      ∃ s ∈ v.sigs, isGoodOutcome (sigOutcome env s) = true :=
    List.countP_pos_iff
  have hb : 0 < badHere env v ↔
      ∃ s ∈ v.sigs, isBadOutcome (sigOutcome env s) = true :=
    List.countP_pos_iff
  have hm : 0 < missingHere env v ↔
      ∃ s ∈ v.sigs, isMissingOutcome (sigOutcome env s) = true :=
    List.countP_pos_iff
  have hu : 0 < unknownHere env v ↔
      ∃ s ∈ v.sigs, isUnknownOutcome (sigOutcome env s) = true :=
    List.countP_pos_iff
  rw [← hg, ← hb, ← hm, ← hu]
  unfold voterBucket
  split_ifs <;> simp_all

/-! ## Consensus store (`networkstatus_set_current_consensus`)

The install protocol is modelled as a pure step function over the module-level
state (current consensus and cert-waiting slot, per flavor).  External
collaborators are an environment: the parser's result on the given bytes, the
usable flavor, whether we cache directory info, the quorum checker's result on
the parsed document, and the clock.  Observable side effects (file writes,
unlinks, control events, certificate-fetch kicks) are returned as flags. -/

inductive Flavor where
  | ns
  | microdesc
deriving DecidableEq, BEq

/-- `networkstatus_parse_flavor_name`: `"ns"` and `"microdesc"` are the only
recognized flavor names; everything else yields `-1` (here `none`). -/
def networkstatus_parse_flavor_name (s : String) : Option Flavor :=
  if s = "ns" then some Flavor.ns
  else if s = "microdesc" then some Flavor.microdesc
  else none

/-- The attributes of a parsed consensus (`networkstatus_t`) that the install
protocol consults.  `digests` abstracts the `digests_t` struct compared with
`tor_memeq`. -/
structure Consensus where
  flavor : Flavor
  digests : Nat
  valid_after : Int
  fresh_until : Int
  valid_until : Int
deriving DecidableEq

/-- A `consensus_waiting_for_certs_t` slot that is occupied. -/
structure Waiting where
  consensus : Consensus
  body : Nat
  set_at : Int
  dl_failed : Bool
deriving DecidableEq

/-- The module-level stores of networkstatus.c touched by the install
protocol: `current_ns_consensus`, `current_md_consensus`, and the two
`consensus_waiting_for_certs` slots. -/
structure NSState where
  currentNS : Option Consensus
  currentMD : Option Consensus
  waitingNS : Option Waiting
  waitingMD : Option Waiting
deriving DecidableEq

def NSState.current (st : NSState) : Flavor → Option Consensus
  | Flavor.ns => st.currentNS
  | Flavor.microdesc => st.currentMD

def NSState.waiting (st : NSState) : Flavor → Option Waiting
  | Flavor.ns => st.waitingNS
  | Flavor.microdesc => st.waitingMD

def NSState.withCurrent (st : NSState) : Flavor → Option Consensus → NSState
  | Flavor.ns, c => { st with currentNS := c }
  | Flavor.microdesc, c => { st with currentMD := c }

def NSState.withWaiting (st : NSState) : Flavor → Option Waiting → NSState
  | Flavor.ns, w => { st with waitingNS := w }
  | Flavor.microdesc, w => { st with waitingMD := w }

/-- The `NSSET_*` bits of the `flags` argument. -/
structure SCFlags where
  fromCache : Bool
  wasWaitingForCerts : Bool
  dontDownloadCerts : Bool
  acceptObsolete : Bool
  requireFlavor : Bool
deriving DecidableEq

/-- The environment of one `networkstatus_set_current_consensus` call:
`parse` is `networkstatus_parse_vote_from_string` applied to the given bytes;
`usableFlavor` is `usable_consensus_flavor()`; `cachesDirInfo` is
`directory_caches_dir_info(options)`; `quorum` is the value
`networkstatus_check_consensus_signature(c, 1)` for the parsed document;
`now` is `time(NULL)`. -/
structure SCEnv where
  parse : Option Consensus
  usableFlavor : Flavor
  cachesDirInfo : Bool
  quorum : Int
  now : Int

/-- `OLD_ROUTER_DESC_MAX_AGE` (or.h, outside this repository's sources): five
days, used by the from-cache obsolescence check. -/
def OLD_ROUTER_DESC_MAX_AGE : Int := 60 * 60 * 24 * 5

/-- `EARLY_CONSENSUS_NOTICE_SKEW = 60`. -/
def EARLY_CONSENSUS_NOTICE_SKEW : Int := 60

/-- Return value, new state and observable effects of one call. -/
structure SCResult where
  state : NSState
  ret : Int
  parsed : Bool
  wroteUnverifiedFile : Bool
  wroteConsensusFile : Bool
  unlinkedUnverified : Bool
  kickedCertFetch : Bool
  dirservCached : Bool
  eventConsensusArrived : Bool
  eventConsensusChanged : Bool
  eventClockSkew : Bool
  installed : Bool
deriving DecidableEq

/-- `current_valid_after`: the installed consensus's `valid_after` for this
flavor, or the sentinel `0` when none is installed (the source initializes
`current_valid_after = 0` and tests its truthiness). -/
def currentVAOf (st : NSState) (flav : Flavor) : Int :=
  match st.current flav with
  | some cur => cur.valid_after
  | none => 0

/-- `current_digests && tor_memeq(&c->digests, current_digests, ...)`. -/
def currentDigestsMatch (st : NSState) (flav : Flavor) (c : Consensus) : Bool :=
  match st.current flav with
  | some cur => cur.digests == c.digests
  | none => false

/-- A `goto done` before the quorum check: state unchanged, no observable
effect besides the return value. -/
def scDrop (st : NSState) (ret : Int) (parsed : Bool) : SCResult :=
  { state := st, ret := ret, parsed := parsed,
    wroteUnverifiedFile := false, wroteConsensusFile := false,
    unlinkedUnverified := false, kickedCertFetch := false,
    dirservCached := false, eventConsensusArrived := false,
    eventConsensusChanged := false, eventClockSkew := false,
    installed := false }

/-- The `r == -1` (`need_more_certs`) arm of the quorum dispatch. -/
def scParkArm (env : SCEnv) (st : NSState) (flags : SCFlags)
    (flav : Flavor) (c : Consensus) (body : Nat)
    (currentVA : Int) : SCResult :=
  if currentVA = 0 ∨ currentVA < c.valid_after then
    { state := st.withWaiting flav
        (some { consensus := c, body := body,
                set_at := env.now, dl_failed := false })
      ret := 0
      parsed := true
      wroteUnverifiedFile := !flags.fromCache
      wroteConsensusFile := false
      unlinkedUnverified := false
      kickedCertFetch := !flags.dontDownloadCerts
      dirservCached := false
      eventConsensusArrived := false
      eventConsensusChanged := false
      eventClockSkew := false
      installed := false }
  else
    { scDrop st (-1) true with
        unlinkedUnverified := flags.wasWaitingForCerts && flags.fromCache }

/-- The `r <= -2` (`insufficient`) arm of the quorum dispatch: hard failure
`-2` unless this consensus was already waiting for certs, in which case the
initial `-1` stands; the unverified file is removed when it came from the
cache. -/
def scRejectArm (st : NSState) (flags : SCFlags) : SCResult :=
  { scDrop st (if flags.wasWaitingForCerts then -1 else -2) true with
      unlinkedUnverified := flags.wasWaitingForCerts && flags.fromCache }

/-- The install tail: replace the current consensus of this flavor, evict a
parked consensus that is no newer, reset or fail the download status, cache
and persist, and warn about early clocks. -/
def scInstallArm (env : SCEnv) (st : NSState) (flags : SCFlags)
    (flav : Flavor) (c : Consensus) : SCResult :=
  let st1 := st.withCurrent flav (some c)
  let evict :=
    match st1.waiting flav with
    | some w => w.consensus.valid_after ≤ c.valid_after
    | none => false
  let st2 := if evict then st1.withWaiting flav none else st1
  { state := st2
    ret := 0
    parsed := true
    wroteUnverifiedFile := false
    wroteConsensusFile := !flags.fromCache
    unlinkedUnverified := evict
    kickedCertFetch := env.quorum != 1 && !flags.dontDownloadCerts
    dirservCached := env.cachesDirInfo
    eventConsensusArrived := !flags.fromCache && flav == env.usableFlavor
    eventConsensusChanged := flav == env.usableFlavor
    eventClockSkew :=
      decide (env.now < c.valid_after - EARLY_CONSENSUS_NOTICE_SKEW)
    installed := true }

/-- `networkstatus_set_current_consensus(consensus, flavor, flags)`, as a pure
step over `NSState`.  `body` stands for the consensus bytes; `flavorStr` is
the `flavor` argument. -/
def networkstatus_set_current_consensus (env : SCEnv) (st : NSState)
    (flavorStr : String) (body : Nat) (flags : SCFlags) : SCResult :=
  match networkstatus_parse_flavor_name flavorStr with
  | none => scDrop st (-2) false
  | some flav0 =>
    match env.parse with
    | none => scDrop st (-2) true
    | some c =>
      if c.flavor ≠ flav0 ∧ flags.requireFlavor then scDrop st (-1) true
      else
        let flav := c.flavor
        if flav ≠ env.usableFlavor ∧ ¬ env.cachesDirInfo then
          scDrop st (-1) true
        else if flags.fromCache ∧ ¬ flags.acceptObsolete ∧
            c.valid_until < env.now - OLD_ROUTER_DESC_MAX_AGE then
          scDrop st (-1) true
        else
          if currentDigestsMatch st flav c then scDrop st (-1) true
          else if currentVAOf st flav ≠ 0 ∧
              c.valid_after ≤ currentVAOf st flav then
            scDrop st (-1) true
          else if env.quorum < 0 then
            if env.quorum = -1 then
              scParkArm env st flags flav c body (currentVAOf st flav)
            else scRejectArm st flags
          else scInstallArm env st flags flav c

/-- An empty store: no current consensus, nothing parked. -/
def emptyNSState : NSState :=
  { currentNS := none, currentMD := none,
    waitingNS := none, waitingMD := none }

/-- Flags with no `NSSET_*` bit set. -/
def scFlagsNone : SCFlags :=
  { fromCache := false, wasWaitingForCerts := false,
    dontDownloadCerts := false, acceptObsolete := false,
    requireFlavor := false }

/-- C10: an unrecognized flavor string makes
`networkstatus_set_current_consensus` return `-2` at once: nothing is parsed
and no store or file is touched. -/
theorem C10_unknown_flavor_hard_failure (env : SCEnv) (st : NSState)
    (flavorStr : String) (body : Nat) (flags : SCFlags)
    (h : networkstatus_parse_flavor_name flavorStr = none) :
    networkstatus_set_current_consensus env st flavorStr body flags =
      scDrop st (-2) false := by
  unfold networkstatus_set_current_consensus
  rw [h]

/-- C10 witness: the flavor string "opinion" is not recognized, and a call
with it returns `-2`, unparsed, with the store unchanged. -/
theorem C10_witness :
    networkstatus_parse_flavor_name "opinion" = none ∧
    networkstatus_set_current_consensus
        { parse := none, usableFlavor := Flavor.ns, cachesDirInfo := false,
          quorum := -2, now := 0 }
        emptyNSState "opinion" 0 scFlagsNone =
      scDrop emptyNSState (-2) false :=
  ⟨by decide,
   C10_unknown_flavor_hard_failure _ _ _ _ _ (by decide)⟩

/-- C6 (amended): with a current consensus of the document's flavor
installed, a duplicate document (equal digests), or a stale one
(`valid_after ≤ current.valid_after`, provided the current `valid_after` is
nonzero), is dropped with `-1`: the store is unchanged, nothing is written,
and no event is emitted. -/
theorem C6_duplicate_stale_drop (env : SCEnv) (st : NSState)
    (flavorStr : String) (body : Nat) (flags : SCFlags)
    (flav0 : Flavor) (c cur : Consensus)
    (hf : networkstatus_parse_flavor_name flavorStr = some flav0)
    (hp : env.parse = some c)
    (hcur : st.current c.flavor = some cur)
    (hcond : c.digests = cur.digests ∨
      (cur.valid_after ≠ 0 ∧ c.valid_after ≤ cur.valid_after)) :
    networkstatus_set_current_consensus env st flavorStr body flags =
      scDrop st (-1) true := by
  have hva : currentVAOf st c.flavor = cur.valid_after := by
    unfold currentVAOf; rw [hcur]
  have hdm : currentDigestsMatch st c.flavor c = (cur.digests == c.digests) := by
    unfold currentDigestsMatch; rw [hcur]
  unfold networkstatus_set_current_consensus
  rw [hf, hp]
  simp only [hva, hdm]
  split_ifs with h1 h2 h3 h4 h5 <;> try rfl
  all_goals
    exfalso
    rcases hcond with hdig | hstale
    · exact h4 (by simp [hdig])
    · exact h5 hstale

/-- C6 witness: a stale arrival (`valid_after = 5 ≤ 9`, current nonzero) is
dropped with `-1` and no effect. -/
theorem C6_witness :
    networkstatus_set_current_consensus
        { parse := some { flavor := Flavor.ns, digests := 2, valid_after := 5,
                          fresh_until := 6, valid_until := 7 },
          usableFlavor := Flavor.ns, cachesDirInfo := false,
          quorum := 0, now := 10 }
        { currentNS := some { flavor := Flavor.ns, digests := 1,
                              valid_after := 9, fresh_until := 11,
                              valid_until := 12 },
          currentMD := none, waitingNS := none, waitingMD := none }
        "ns" 3 scFlagsNone =
      scDrop
        { currentNS := some { flavor := Flavor.ns, digests := 1,
                              valid_after := 9, fresh_until := 11,
                              valid_until := 12 },
          currentMD := none, waitingNS := none, waitingMD := none }
        (-1) true :=
  C6_duplicate_stale_drop _ _ _ _ _ Flavor.ns _ _
    (by decide) rfl rfl (Or.inr (by decide))

/-- C6 counterexample: the stale check is guarded by the truthiness of
`current_valid_after`, so with an installed consensus whose `valid_after` is
`0` a new document with `valid_after ≤ 0` is *not* dropped as stale: here it
passes the quorum check and is installed with return `0`, although the claim
requires `-1` and no change. -/
theorem C6_counterexample :
    ((0 : Int) ≤ 0 ∧
     (networkstatus_set_current_consensus
        { parse := some { flavor := Flavor.ns, digests := 2, valid_after := 0,
                          fresh_until := 1, valid_until := 10 },
          usableFlavor := Flavor.ns, cachesDirInfo := false,
          quorum := 0, now := 0 }
        { currentNS := some { flavor := Flavor.ns, digests := 1,
                              valid_after := 0, fresh_until := 1,
                              valid_until := 10 },
          currentMD := none, waitingNS := none, waitingMD := none }
        "ns" 3 scFlagsNone).ret = 0 ∧
     (networkstatus_set_current_consensus
        { parse := some { flavor := Flavor.ns, digests := 2, valid_after := 0,
                          fresh_until := 1, valid_until := 10 },
          usableFlavor := Flavor.ns, cachesDirInfo := false,
          quorum := 0, now := 0 }
        { currentNS := some { flavor := Flavor.ns, digests := 1,
                              valid_after := 0, fresh_until := 1,
                              valid_until := 10 },
          currentMD := none, waitingNS := none, waitingMD := none }
        "ns" 3 scFlagsNone).installed = true) := by
  decide

/-- C4 (amended): when a call reaches the quorum check and it yields
`need_more_certs`, the consensus is parked in the cert-waiting slot of its
flavor — replacing whatever was parked there — the call returns `0`, no
current consensus is installed, and the bytes are persisted to the
`unverified-<flavor>-consensus` file unless the call carries
`NSSET_FROM_CACHE` (the bytes then already came from that file). -/
theorem C4_need_more_certs_parks (env : SCEnv) (st : NSState)
    (flavorStr : String) (body : Nat) (flags : SCFlags)
    (flav0 : Flavor) (c : Consensus)
    (hf : networkstatus_parse_flavor_name flavorStr = some flav0)
    (hp : env.parse = some c)
    (hreq : c.flavor = flav0 ∨ flags.requireFlavor = false)
    (huse : c.flavor = env.usableFlavor ∨ env.cachesDirInfo = true)
    (hobs : flags.fromCache = false ∨ flags.acceptObsolete = true ∨
      env.now - OLD_ROUTER_DESC_MAX_AGE ≤ c.valid_until)
    (hdup : currentDigestsMatch st c.flavor c = false)
    (hstale : currentVAOf st c.flavor = 0 ∨
      currentVAOf st c.flavor < c.valid_after)
    (hq : env.quorum = -1) :
    networkstatus_set_current_consensus env st flavorStr body flags =
      { state := st.withWaiting c.flavor
          (some { consensus := c, body := body, set_at := env.now,
                  dl_failed := false })
        ret := 0
        parsed := true
        wroteUnverifiedFile := !flags.fromCache
        wroteConsensusFile := false
        unlinkedUnverified := false
        kickedCertFetch := !flags.dontDownloadCerts
        dirservCached := false
        eventConsensusArrived := false
        eventConsensusChanged := false
        eventClockSkew := false
        installed := false } := by
  have hqlt : env.quorum < 0 := by omega
  have c1 : ¬ (c.flavor ≠ flav0 ∧ flags.requireFlavor = true) := by
    rintro ⟨hne, hrf⟩
    rcases hreq with h | h
    · exact hne h
    · rw [h] at hrf; exact Bool.false_ne_true hrf
  have c2 : ¬ (c.flavor ≠ env.usableFlavor ∧ ¬ env.cachesDirInfo = true) := by
    rintro ⟨hne, hnc⟩
    rcases huse with h | h
    · exact hne h
    · exact hnc h
  have c3 : ¬ (flags.fromCache = true ∧ ¬ flags.acceptObsolete = true ∧
      c.valid_until < env.now - OLD_ROUTER_DESC_MAX_AGE) := by
    rintro ⟨hfc, hao, hvu⟩
    rcases hobs with h | h | h
    · rw [h] at hfc; exact Bool.false_ne_true hfc
    · exact hao h
    · omega
  have c4 : ¬ (currentDigestsMatch st c.flavor c = true) := by simp [hdup]
  have c5 : ¬ (currentVAOf st c.flavor ≠ 0 ∧
      c.valid_after ≤ currentVAOf st c.flavor) := by
    rintro ⟨hnz, hle⟩
    rcases hstale with h | h
    · exact hnz h
    · omega
  unfold networkstatus_set_current_consensus scParkArm
  rw [hf, hp]
  dsimp only
  rw [if_neg c1, if_neg c2, if_neg c3, if_neg c4, if_neg c5, if_pos hqlt,
    if_pos hq, if_pos hstale]

/-- The consensus of the C4 witness: a microdesc consensus with
`valid_after = 100`. -/
def c4wCons : Consensus :=
  { flavor := Flavor.microdesc, digests := 4, valid_after := 100,
    fresh_until := 200, valid_until := 300 }

/-- The environment of the C4 witness: the parse yields `c4wCons` and the
quorum check yields `need_more_certs`. -/
def c4wEnv : SCEnv :=
  { parse := some c4wCons, usableFlavor := Flavor.microdesc,
    cachesDirInfo := false, quorum := -1, now := 120 }

/-- C4 witness: a non-cache call over an empty store with quorum result `-1`
parks the consensus, writes the unverified file, and returns `0`. -/
theorem C4_witness :
    networkstatus_set_current_consensus c4wEnv emptyNSState "microdesc" 9
        scFlagsNone =
      { state := { currentNS := none, currentMD := none, waitingNS := none,
                   waitingMD := some
                     { consensus := { flavor := Flavor.microdesc, digests := 4,
                                      valid_after := 100, fresh_until := 200,
                                      valid_until := 300 },
                       body := 9, set_at := 120, dl_failed := false } }
        ret := 0
        parsed := true
        wroteUnverifiedFile := true
        wroteConsensusFile := false
        unlinkedUnverified := false
        kickedCertFetch := true
        dirservCached := false
        eventConsensusArrived := false
        eventConsensusChanged := false
        eventClockSkew := false
        installed := false } :=
  C4_need_more_certs_parks c4wEnv emptyNSState "microdesc" 9 scFlagsNone
    Flavor.microdesc c4wCons (by decide) rfl (Or.inl rfl) (Or.inl rfl)
    (Or.inl rfl) (by decide) (Or.inl (by decide)) rfl

/-- C4 counterexample: a `NSSET_FROM_CACHE` call whose quorum check yields
`need_more_certs` parks the consensus and returns `0`, but does *not* write
the `unverified-<flavor>-consensus` file, contradicting the claim that the
bytes are persisted on every such call. -/
theorem C4_counterexample :
    ((networkstatus_set_current_consensus
        { parse := some { flavor := Flavor.ns, digests := 4,
                          valid_after := 100, fresh_until := 200,
                          valid_until := 300 },
          usableFlavor := Flavor.ns, cachesDirInfo := false,
          quorum := -1, now := 120 }
        emptyNSState "ns" 9
        { scFlagsNone with fromCache := true, acceptObsolete := true }).ret
        = 0 ∧
     (networkstatus_set_current_consensus
        { parse := some { flavor := Flavor.ns, digests := 4,
                          valid_after := 100, fresh_until := 200,
                          valid_until := 300 },
          usableFlavor := Flavor.ns, cachesDirInfo := false,
          quorum := -1, now := 120 }
        emptyNSState "ns" 9
        { scFlagsNone with fromCache := true, acceptObsolete := true
          }).state.waitingNS =
       some { consensus := { flavor := Flavor.ns, digests := 4,
                             valid_after := 100, fresh_until := 200,
                             valid_until := 300 },
              body := 9, set_at := 120, dl_failed := false } ∧
     (networkstatus_set_current_consensus
        { parse := some { flavor := Flavor.ns, digests := 4,
                          valid_after := 100, fresh_until := 200,
                          valid_until := 300 },
          usableFlavor := Flavor.ns, cachesDirInfo := false,
          quorum := -1, now := 120 }
        emptyNSState "ns" 9
        { scFlagsNone with fromCache := true, acceptObsolete := true
          }).wroteUnverifiedFile = false) := by
  decide

/-- The claimed relation between one cert-waiting slot and the current
consensus of the same flavor: a parked consensus is strictly newer. -/
def slotNewer : Option Waiting → Option Consensus → Bool
  | some w, some cur => decide (cur.valid_after < w.consensus.valid_after)
  | _, _ => true

/-- The claimed invariant (spec: for all parked `P`, either
`P.valid_after > current.valid_after` or no current exists). -/
def waitingInvClaim (st : NSState) : Bool :=
  slotNewer st.waitingNS st.currentNS && slotNewer st.waitingMD st.currentMD

/-- The relation the source actually maintains: a parked consensus is
strictly newer than the current one, unless the current one's `valid_after`
is the `0` sentinel that the source's truthiness tests treat as absent. -/
def slotNewerOrSentinel : Option Waiting → Option Consensus → Bool
  | some w, some cur =>
      decide (cur.valid_after < w.consensus.valid_after) ||
      decide (cur.valid_after = 0)
  | _, _ => true

/-- The amended invariant, per flavor. -/
def waitingInvFixed (st : NSState) : Bool :=
  slotNewerOrSentinel st.waitingNS st.currentNS &&
  slotNewerOrSentinel st.waitingMD st.currentMD

/-- Parking preserves the amended invariant: the slot is only filled when the
current `valid_after` is the `0` sentinel or older than the new document. -/
theorem scParkArm_preserves_inv (env : SCEnv) (st : NSState) (flags : SCFlags)
    (flav : Flavor) (c : Consensus) (body : Nat)
    (hinv : waitingInvFixed st = true) :
    waitingInvFixed
      (scParkArm env st flags flav c body (currentVAOf st flav)).state
      = true := by
  unfold scParkArm
  rcases Bool.and_eq_true .. |>.mp hinv with ⟨hns, hmd⟩
  split_ifs with h
  · cases flav with
    | ns =>
      unfold waitingInvFixed NSState.withWaiting
      rw [Bool.and_eq_true]
      refine ⟨?_, hmd⟩
      cases hc : st.currentNS with
      | none => rfl
      | some cur =>
        have hva : currentVAOf st Flavor.ns = cur.valid_after := by
          unfold currentVAOf NSState.current
          rw [hc]
        rw [hva] at h
        unfold slotNewerOrSentinel
        dsimp only
        simp only [Bool.or_eq_true, decide_eq_true_eq]
        omega
    | microdesc =>
      unfold waitingInvFixed NSState.withWaiting
      rw [Bool.and_eq_true]
      refine ⟨hns, ?_⟩
      cases hc : st.currentMD with
      | none => rfl
      | some cur =>
        have hva : currentVAOf st Flavor.microdesc = cur.valid_after := by
          unfold currentVAOf NSState.current
          rw [hc]
        rw [hva] at h
        unfold slotNewerOrSentinel
        dsimp only
        simp only [Bool.or_eq_true, decide_eq_true_eq]
        omega
  · exact hinv

/-- Installing preserves the amended invariant: a parked consensus that is no
newer than the installed one is evicted. -/
theorem scInstallArm_preserves_inv (env : SCEnv) (st : NSState)
    (flags : SCFlags) (flav : Flavor) (c : Consensus)
    (hinv : waitingInvFixed st = true) :
    waitingInvFixed (scInstallArm env st flags flav c).state = true := by
  rcases Bool.and_eq_true .. |>.mp hinv with ⟨hns, hmd⟩
  unfold scInstallArm
  cases flav with
  | ns =>
    cases hw : st.waitingNS with
    | none =>
      simp only [NSState.withCurrent, NSState.waiting, hw]
      unfold waitingInvFixed NSState.withWaiting
      rw [Bool.and_eq_true]
      exact ⟨rfl, hmd⟩
    | some w =>
      simp only [NSState.withCurrent, NSState.waiting, hw]
      split_ifs with he
      · unfold waitingInvFixed NSState.withWaiting
        rw [Bool.and_eq_true]
        exact ⟨rfl, hmd⟩
      · simp only [decide_eq_true_eq] at he
        unfold waitingInvFixed
        rw [Bool.and_eq_true]
        refine ⟨?_, hmd⟩
        show slotNewerOrSentinel (some w) (some c) = true
        unfold slotNewerOrSentinel
        simp only [Bool.or_eq_true, decide_eq_true_eq]
        omega
  | microdesc =>
    cases hw : st.waitingMD with
    | none =>
      simp only [NSState.withCurrent, NSState.waiting, hw]
      unfold waitingInvFixed NSState.withWaiting
      rw [Bool.and_eq_true]
      exact ⟨hns, rfl⟩
    | some w =>
      simp only [NSState.withCurrent, NSState.waiting, hw]
      split_ifs with he
      · unfold waitingInvFixed NSState.withWaiting
        rw [Bool.and_eq_true]
        exact ⟨hns, rfl⟩
      · simp only [decide_eq_true_eq] at he
        unfold waitingInvFixed
        rw [Bool.and_eq_true]
        refine ⟨hns, ?_⟩
        show slotNewerOrSentinel (some w) (some c) = true
        unfold slotNewerOrSentinel
        simp only [Bool.or_eq_true, decide_eq_true_eq]
        omega

/-- C5 (amended): every call of `networkstatus_set_current_consensus`
preserves the invariant that a parked consensus is strictly newer than the
installed one of its flavor, weakened at the source's `0`-sentinel: either
`P.valid_after > current.valid_after`, or no current exists, or the current
`valid_after` is `0` (which the source's truthiness tests treat as "no
current"). -/
theorem C5_waiting_invariant_preserved (env : SCEnv) (st : NSState)
    (flavorStr : String) (body : Nat) (flags : SCFlags)
    (hinv : waitingInvFixed st = true) :
    waitingInvFixed
      (networkstatus_set_current_consensus env st flavorStr body flags).state
      = true := by
  unfold networkstatus_set_current_consensus
  cases networkstatus_parse_flavor_name flavorStr with
  | none => exact hinv
  | some flav0 =>
    cases env.parse with
    | none => exact hinv
    | some c =>
      dsimp only
      split_ifs with h1 h2 h3 h4 h5 h6 h7
      · exact hinv
      · exact hinv
      · exact hinv
      · exact hinv
      · exact hinv
      · exact scParkArm_preserves_inv env st flags c.flavor c body hinv
      · exact hinv
      · exact scInstallArm_preserves_inv env st flags c.flavor c hinv

/-- C5 witness: over an empty store (which satisfies the invariant), an
installing call keeps the invariant. -/
theorem C5_witness :
    waitingInvFixed emptyNSState = true ∧
    waitingInvFixed
      (networkstatus_set_current_consensus
        { parse := some { flavor := Flavor.ns, digests := 1, valid_after := 50,
                          fresh_until := 60, valid_until := 70 },
          usableFlavor := Flavor.ns, cachesDirInfo := false,
          quorum := 1, now := 55 }
        emptyNSState "ns" 2 scFlagsNone).state = true :=
  ⟨by decide,
   C5_waiting_invariant_preserved
     { parse := some { flavor := Flavor.ns, digests := 1, valid_after := 50,
                       fresh_until := 60, valid_until := 70 },
       usableFlavor := Flavor.ns, cachesDirInfo := false,
       quorum := 1, now := 55 }
     emptyNSState "ns" 2 scFlagsNone (by decide)⟩

/-- First call of the C5 counterexample: installs a consensus whose
`valid_after` is `0`. -/
def c5xEnvInstall : SCEnv :=
  { parse := some { flavor := Flavor.ns, digests := 1, valid_after := 0,
                    fresh_until := 1, valid_until := 10 },
    usableFlavor := Flavor.ns, cachesDirInfo := false, quorum := 0, now := 0 }

/-- Second call of the C5 counterexample: parks a consensus whose
`valid_after` is also `0`. -/
def c5xEnvPark : SCEnv :=
  { parse := some { flavor := Flavor.ns, digests := 2, valid_after := 0,
                    fresh_until := 1, valid_until := 10 },
    usableFlavor := Flavor.ns, cachesDirInfo := false, quorum := -1, now := 1 }

/-- C5 counterexample: starting from the empty store, installing a consensus
with `valid_after = 0` and then receiving a second one with `valid_after = 0`
and quorum result `need_more_certs` parks the second while the first stays
installed: the parked consensus is *not* strictly newer than the current one
(`0 > 0` fails), because the parking condition tests the truthiness of
`current_valid_after` and a zero `valid_after` passes as "no current".  The
claimed invariant is violated in a reachable state. -/
theorem C5_counterexample :
    waitingInvClaim emptyNSState = true ∧
    waitingInvClaim
      (networkstatus_set_current_consensus c5xEnvInstall emptyNSState "ns" 1
        scFlagsNone).state = true ∧
    waitingInvClaim
      (networkstatus_set_current_consensus c5xEnvPark
        (networkstatus_set_current_consensus c5xEnvInstall emptyNSState "ns" 1
          scFlagsNone).state "ns" 2 scFlagsNone).state = false := by
  decide

/-! ## Download scheduler (`update_consensus_networkstatus_fetch_time_impl`)

The four node kinds mirror the branch structure of the source:
caches fetch early (`directory_fetches_dir_info_early`), optionally extra
early (`FetchDirInfoExtraEarly || authdir_mode_v3`); ordinary clients fetch
late; bridge users (`directory_fetches_dir_info_later`) shift the client
window once more.  C `long` arithmetic truncates toward zero, hence
`Int.tdiv`. -/

inductive NodeKind where
  | cacheEarly
  | cacheExtraEarly
  | client
  | bridgeClient
deriving DecidableEq

/-- `CONSENSUS_MIN_SECONDS_BEFORE_CACHING = 120`. -/
def CONSENSUS_MIN_SECONDS_BEFORE_CACHING : Int := 120

/-- The slop: `min_sec_before_caching`, lowered to `interval/16` when that is
smaller than 120 s. -/
def minSecBeforeCaching (interval : Int) : Int :=
  if Int.tdiv interval 16 < CONSENSUS_MIN_SECONDS_BEFORE_CACHING then
    Int.tdiv interval 16
  else CONSENSUS_MIN_SECONDS_BEFORE_CACHING

/-- The `start` computed for a live consensus, per node kind. -/
def fwStart (c : Consensus) (kind : NodeKind) : Int :=
  match kind with
  | NodeKind.cacheEarly =>
      c.fresh_until + minSecBeforeCaching (c.fresh_until - c.valid_after)
  | NodeKind.cacheExtraEarly =>
      c.fresh_until + minSecBeforeCaching (c.fresh_until - c.valid_after)
  | NodeKind.client =>
      c.fresh_until + Int.tdiv ((c.fresh_until - c.valid_after) * 3) 4
  | NodeKind.bridgeClient =>
      c.fresh_until + Int.tdiv ((c.fresh_until - c.valid_after) * 3) 4 +
        Int.tdiv
          ((c.valid_until -
            (c.fresh_until +
              Int.tdiv ((c.fresh_until - c.valid_after) * 3) 4)) * 7) 8 +
        minSecBeforeCaching (c.fresh_until - c.valid_after)

/-- The `dl_interval` before the final `if (dl_interval < 1)` clamp. -/
def fwRawInterval (c : Consensus) (kind : NodeKind) : Int :=
  match kind with
  | NodeKind.cacheEarly => Int.tdiv (c.fresh_until - c.valid_after) 2
  | NodeKind.cacheExtraEarly =>
      if c.fresh_until - c.valid_after <
          minSecBeforeCaching (c.fresh_until - c.valid_after) + 60 then
        Int.tdiv (c.fresh_until - c.valid_after) 2
      else 60
  | NodeKind.client =>
      Int.tdiv ((c.valid_until - fwStart c NodeKind.client) * 7) 8
  | NodeKind.bridgeClient =>
      (c.valid_until - fwStart c NodeKind.bridgeClient) -
        minSecBeforeCaching (c.fresh_until - c.valid_after)

/-- The scheduling window of `update_consensus_networkstatus_fetch_time_impl`
for a live consensus: `start` and the clamped `dl_interval ≥ 1`. -/
structure FetchWindow where
  start : Int
  dl_interval : Int
deriving DecidableEq

def consensusFetchWindow (c : Consensus) (kind : NodeKind) : FetchWindow :=
  { start := fwStart c kind
    dl_interval :=
      if fwRawInterval c kind < 1 then 1 else fwRawInterval c kind }

/-- `update_consensus_networkstatus_fetch_time_impl`: with a live consensus
(`valid_after ≤ now ≤ valid_until`) the next download time is
`start + crypto_rand_int(dl_interval)` (the random draw is a parameter);
without one it is `now`. -/
def nextConsensusFetchTime (c : Option Consensus) (now : Int)
    (kind : NodeKind) (rand : Int → Int) : Int :=
  match c with
  | some c =>
      if c.valid_after ≤ now ∧ now ≤ c.valid_until then
        (consensusFetchWindow c kind).start +
          rand (consensusFetchWindow c kind).dl_interval
      else now
  | none => now

/-- A degenerate but data-model-conforming consensus: all three timestamps
equal. -/
def c7DegenerateCons : Consensus :=
  { flavor := Flavor.ns, digests := 0, valid_after := 0, fresh_until := 0,
    valid_until := 0 }

/-- C7 counterexample: for a live consensus whose timestamps merely satisfy
the data model's ordering (`valid_after ≤ fresh_until ≤ valid_until` — here
all equal, so `interval = 0`), the ordinary-client computation yields
`start = fresh_until` and the assertion `fresh_until < start` fails (the
source's `tor_assert` would abort), contradicting the claim that the
assertions hold for every such consensus. -/
theorem C7_counterexample :
    c7DegenerateCons.valid_after ≤ c7DegenerateCons.fresh_until ∧
    c7DegenerateCons.fresh_until ≤ c7DegenerateCons.valid_until ∧
    c7DegenerateCons.valid_after ≤ 0 ∧
    (0 : Int) ≤ c7DegenerateCons.valid_until ∧
    ¬ (c7DegenerateCons.fresh_until <
        (consensusFetchWindow c7DegenerateCons NodeKind.client).start) := by
  decide

/-- C7 (amended): for every consensus whose fresh interval is at least 32
seconds and whose remaining lifetime after `fresh_until` is at least twice
the fresh interval (real consensuses use one-hour fresh intervals and
three-hour lifetimes), and for every node kind, `dl_interval ≥ 1` and the
source's assertions hold: `fresh_until < start` and
`start + dl_interval < valid_until`; hence every possible
`next_download_time = start + uniform_random([0, dl_interval))` lies strictly
between `fresh_until` and `valid_until`. -/
theorem C7_fetch_window_safe (c : Consensus) (kind : NodeKind)
    (hI : 32 ≤ c.fresh_until - c.valid_after)
    (hT : 2 * (c.fresh_until - c.valid_after) ≤
      c.valid_until - c.fresh_until) :
    1 ≤ (consensusFetchWindow c kind).dl_interval ∧
    c.fresh_until < (consensusFetchWindow c kind).start ∧
    (consensusFetchWindow c kind).start +
      (consensusFetchWindow c kind).dl_interval < c.valid_until ∧
    (∀ r : Int, 0 ≤ r → r < (consensusFetchWindow c kind).dl_interval →
      c.fresh_until < (consensusFetchWindow c kind).start + r ∧
      (consensusFetchWindow c kind).start + r < c.valid_until) := by
  have h16 : Int.tdiv (c.fresh_until - c.valid_after) 16 =
      (c.fresh_until - c.valid_after) / 16 :=
    Int.tdiv_eq_ediv (by omega) (by omega)
  have h2 : Int.tdiv (c.fresh_until - c.valid_after) 2 =
      (c.fresh_until - c.valid_after) / 2 :=
    Int.tdiv_eq_ediv (by omega) (by omega)
  have h34 : Int.tdiv ((c.fresh_until - c.valid_after) * 3) 4 =
      ((c.fresh_until - c.valid_after) * 3) / 4 :=
    Int.tdiv_eq_ediv (by omega) (by omega)
  have h78 : Int.tdiv
      ((c.valid_until -
        (c.fresh_until + ((c.fresh_until - c.valid_after) * 3) / 4)) * 7) 8 =
      ((c.valid_until -
        (c.fresh_until + ((c.fresh_until - c.valid_after) * 3) / 4)) * 7)
        / 8 :=
    Int.tdiv_eq_ediv (by omega) (by omega)
  cases kind <;>
    · simp only [consensusFetchWindow, fwStart, fwRawInterval,
        minSecBeforeCaching, CONSENSUS_MIN_SECONDS_BEFORE_CACHING, h16, h2,
        h34, h78]
      refine ⟨?_, ?_, ?_, ?_⟩ <;> omega

/-- The consensus of the C7 witness: the real-network timing (one-hour fresh
interval, three-hour lifetime). -/
def c7wCons : Consensus :=
  { flavor := Flavor.microdesc, digests := 0, valid_after := 0,
    fresh_until := 3600, valid_until := 10800 }

/-- C7 witness: with the real-network timing, the bridge-user window is safe:
`dl_interval ≥ 1`, `fresh_until < start` and
`start + dl_interval < valid_until`. -/
theorem C7_witness :
    (32 ≤ c7wCons.fresh_until - c7wCons.valid_after) ∧
    (2 * (c7wCons.fresh_until - c7wCons.valid_after) ≤
      c7wCons.valid_until - c7wCons.fresh_until) ∧
    (1 ≤ (consensusFetchWindow c7wCons NodeKind.bridgeClient).dl_interval ∧
     c7wCons.fresh_until <
       (consensusFetchWindow c7wCons NodeKind.bridgeClient).start ∧
     (consensusFetchWindow c7wCons NodeKind.bridgeClient).start +
       (consensusFetchWindow c7wCons NodeKind.bridgeClient).dl_interval <
         c7wCons.valid_until ∧
     (∀ r : Int, 0 ≤ r →
        r < (consensusFetchWindow c7wCons NodeKind.bridgeClient).dl_interval →
        c7wCons.fresh_until <
          (consensusFetchWindow c7wCons NodeKind.bridgeClient).start + r ∧
        (consensusFetchWindow c7wCons NodeKind.bridgeClient).start + r <
          c7wCons.valid_until)) :=
  ⟨by decide, by decide,
   C7_fetch_window_safe c7wCons NodeKind.bridgeClient (by decide) (by decide)⟩

/-! ## Microdescriptor cache (`microdesc_cache_clean`,
`should_rebuild_md_cache`, `microdesc_cache_rebuild`)

The in-memory hash map is modelled as a list in iteration order; the mmap'd
cache file is abstracted by its size (`cacheLen`) and base address.  A body
pointer is an abstract address (`Nat`).  `dump_microdescriptor` writes
`@last-listed <19-char ISO time>\n` (33 bytes) when `last_listed` is nonzero,
then the body, and records the body's file offset. -/

inductive SavedLocation where
  | nowhere
  | inCache
  | inJournal
deriving DecidableEq, BEq

/-- A `microdesc_t`, restricted to the fields the cache logic touches. -/
structure Microdesc where
  digest : Nat
  bodylen : Nat
  last_listed : Int
  saved_location : SavedLocation
  no_save : Bool
  off : Nat
  body : Nat
deriving DecidableEq

/-- A `microdesc_cache_t`: the map contents, the cache-file size
(`cache_content ? cache_content->size : 0`), `journal_len` and
`bytes_dropped`. -/
structure MDCache where
  entries : List Microdesc
  cacheLen : Nat
  journal_len : Nat
  bytes_dropped : Nat
deriving DecidableEq

/-- `TOLERATE_MICRODESC_AGE = 7*24*60*60`. -/
def TOLERATE_MICRODESC_AGE : Int := 7 * 24 * 60 * 60

/-- `microdesc_cache_clean(cache, cutoff, force)`: a no-op unless forced or a
reasonably live microdesc consensus is known (`live`); otherwise removes every
entry with `last_listed < cutoff` (default `now - TOLERATE_MICRODESC_AGE`)
and accumulates their body lengths into `bytes_dropped`. -/
def microdesc_cache_clean (cache : MDCache) (cutoff : Int) (force : Bool)
    (now : Int) (live : Bool) : MDCache :=
  if !force && !live then cache
  else
    let cut := if cutoff ≤ 0 then now - TOLERATE_MICRODESC_AGE else cutoff
    { cache with
      entries := cache.entries.filter (fun md => !decide (md.last_listed < cut))
      bytes_dropped := cache.bytes_dropped +
        ((cache.entries.filter (fun md => decide (md.last_listed < cut))).map
          (fun md => md.bodylen)).sum }

/-- `should_rebuild_md_cache`: nothing to do below 16 KiB of journal;
otherwise rebuild when more than a third of the used space was dropped or the
journal outgrew half the cache file. -/
def should_rebuild_md_cache (cache : MDCache) : Bool :=
  if cache.journal_len < 16384 then false
  else if (cache.journal_len + cache.cacheLen) / 3 < cache.bytes_dropped then
    true
  else if cache.cacheLen / 2 < cache.journal_len then true
  else false

/-- The annotation bytes `dump_microdescriptor` writes for one entry:
`@last-listed ` (13) + ISO time (19) + newline (1) when `last_listed` is
nonzero. -/
def annLenOf (md : Microdesc) : Nat :=
  if md.last_listed ≠ 0 then 33 else 0

/-- The rewrite pass of `microdesc_cache_rebuild`: walk the map in order,
skip `no_save` entries, write annotation + body for the rest, record the
body's offset, mark it `SAVED_IN_CACHE`, and (after the new file is mmap'd at
`base`) rebind the body pointer to `base + off`. -/
def rebuildEntries (base : Nat) : List Microdesc → Nat → List Microdesc
  | [], _ => []
  | md :: rest, off =>
      if md.no_save then md :: rebuildEntries base rest off
      else
        { md with
            off := off + annLenOf md
            saved_location := SavedLocation.inCache
            body := base + (off + annLenOf md) } ::
          rebuildEntries base rest (off + annLenOf md + md.bodylen)

/-- Total bytes the rewrite pass emits (the new cache file's size). -/
def rebuildSize (l : List Microdesc) : Nat :=
  ((l.filter (fun md => !md.no_save)).map
    (fun md => annLenOf md + md.bodylen)).sum

/-- `microdesc_cache_rebuild(cache, force)`: clean (not forced, so only with
a live consensus), decide via `should_rebuild_md_cache` unless `force`, then
rewrite the cache file, truncate the journal and zero both counters.  The
second component tells whether the rebuild ran. -/
def microdesc_cache_rebuild (cache : MDCache) (force : Bool) (now : Int)
    (live : Bool) (base : Nat) : MDCache × Bool :=
  let cache1 := microdesc_cache_clean cache 0 false now live
  if !force && !should_rebuild_md_cache cache1 then (cache1, false)
  else
    ({ entries := rebuildEntries base cache1.entries 0
       cacheLen := rebuildSize cache1.entries
       journal_len := 0
       bytes_dropped := 0 }, true)

/-- Every entry the rewrite pass emits that is not `no_save` is
`SAVED_IN_CACHE` with its body rebound to `base + off`. -/
theorem rebuildEntries_inCache (base : Nat) (l : List Microdesc) :
    ∀ (off : Nat) (md : Microdesc), md ∈ rebuildEntries base l off →
      md.no_save = false →
      md.saved_location = SavedLocation.inCache ∧ md.body = base + md.off := by
  induction l with
  | nil =>
    intro off md hmd
    simp [rebuildEntries] at hmd
  | cons hd tl ih =>
    intro off md hmd hns
    unfold rebuildEntries at hmd
    split_ifs at hmd with h
    · rcases List.mem_cons.mp hmd with rfl | hmem
      · rw [hns] at h
        cases h
      · exact ih off md hmem hns
    · rcases List.mem_cons.mp hmd with rfl | hmem
      · exact ⟨rfl, rfl⟩
      · exact ih (off + annLenOf hd + hd.bodylen) md hmem hns

/-- C8 (amended): the rebuild runs iff `force` is set or, on the state left
by the embedded clean pass, `journal_len ≥ 16384` and
(`bytes_dropped > (journal_len + cache_len)/3` or
`journal_len > cache_len/2`) — the `should_rebuild_md_cache` test is exactly
that formula — and after a completed rebuild `journal_len = 0`,
`bytes_dropped = 0`, and every surviving descriptor *not marked `no_save`*
has `saved_location = InCache` and `body = mmap_base + off` (`no_save`
entries are skipped by the rewrite pass and keep their old location). -/
theorem C8_rebuild_spec (cache : MDCache) (force : Bool) (now : Int)
    (live : Bool) (base : Nat) :
    ((microdesc_cache_rebuild cache force now live base).2 =
      (force || should_rebuild_md_cache
        (microdesc_cache_clean cache 0 false now live))) ∧
    (should_rebuild_md_cache cache = true ↔
      (16384 ≤ cache.journal_len ∧
       ((cache.journal_len + cache.cacheLen) / 3 < cache.bytes_dropped ∨
        cache.cacheLen / 2 < cache.journal_len))) ∧
    ((microdesc_cache_rebuild cache force now live base).2 = true →
      (microdesc_cache_rebuild cache force now live base).1.journal_len = 0 ∧
      (microdesc_cache_rebuild cache force now live base).1.bytes_dropped
        = 0 ∧
      ∀ md ∈ (microdesc_cache_rebuild cache force now live base).1.entries,
        md.no_save = false →
        md.saved_location = SavedLocation.inCache ∧
        md.body = base + md.off) := by
  refine ⟨?_, ?_, ?_⟩
  · simp only [microdesc_cache_rebuild]
    rcases Bool.eq_false_or_eq_true force with hf | hf <;>
      rcases Bool.eq_false_or_eq_true
        (should_rebuild_md_cache
          (microdesc_cache_clean cache 0 false now live)) with hs | hs <;>
      simp [hf, hs]
  · unfold should_rebuild_md_cache
    split_ifs with h1 h2 h3 <;> simp <;> omega
  · intro hran
    simp only [microdesc_cache_rebuild] at hran ⊢
    split_ifs at hran ⊢ with h
    exact ⟨rfl, rfl,
      rebuildEntries_inCache base
        (microdesc_cache_clean cache 0 false now live).entries 0⟩

/-- The cache of the C8 counterexample: a single `no_save` entry sitting in
the journal, with enough journal bytes that a rebuild is due anyway. -/
def c8xCache : MDCache :=
  { entries := [{ digest := 1, bodylen := 40, last_listed := 100,
                  saved_location := SavedLocation.inJournal, no_save := true,
                  off := 0, body := 5 }]
    cacheLen := 0
    journal_len := 20000
    bytes_dropped := 0 }

/-- C8 counterexample: a forced rebuild runs, yet the surviving `no_save`
descriptor still has `saved_location = InJournal` (and its body pointer is
untouched), contradicting the claim that after a completed rebuild *every*
surviving descriptor is `InCache` with `body = mmap_base + off`. -/
theorem C8_counterexample :
    (microdesc_cache_rebuild c8xCache true 1000 false 777).2 = true ∧
    (∃ md ∈ (microdesc_cache_rebuild c8xCache true 1000 false 777).1.entries,
      md.saved_location ≠ SavedLocation.inCache) := by
  decide

/-- C8 witness: a non-`no_save` journal entry is rewritten by a due rebuild:
the rebuild runs, both counters drop to zero, and the entry ends
`SAVED_IN_CACHE` with `body = mmap_base + off`. -/
theorem C8_witness :
    (microdesc_cache_rebuild
      { entries := [{ digest := 2, bodylen := 40, last_listed := 0,
                      saved_location := SavedLocation.inJournal,
                      no_save := false, off := 0, body := 5 }]
        cacheLen := 0, journal_len := 20000, bytes_dropped := 0 }
      true 1000 false 777).2 = true ∧
    (microdesc_cache_rebuild
      { entries := [{ digest := 2, bodylen := 40, last_listed := 0,
                      saved_location := SavedLocation.inJournal,
                      no_save := false, off := 0, body := 5 }]
        cacheLen := 0, journal_len := 20000, bytes_dropped := 0 }
      true 1000 false 777).1.journal_len = 0 ∧
    (microdesc_cache_rebuild
      { entries := [{ digest := 2, bodylen := 40, last_listed := 0,
                      saved_location := SavedLocation.inJournal,
                      no_save := false, off := 0, body := 5 }]
        cacheLen := 0, journal_len := 20000, bytes_dropped := 0 }
      true 1000 false 777).1.bytes_dropped = 0 ∧
    ∀ md ∈ (microdesc_cache_rebuild
      { entries := [{ digest := 2, bodylen := 40, last_listed := 0,
                      saved_location := SavedLocation.inJournal,
                      no_save := false, off := 0, body := 5 }]
        cacheLen := 0, journal_len := 20000, bytes_dropped := 0 }
      true 1000 false 777).1.entries,
      md.no_save = false →
      md.saved_location = SavedLocation.inCache ∧ md.body = 777 + md.off :=
  ⟨rfl,
   (C8_rebuild_spec
     { entries := [{ digest := 2, bodylen := 40, last_listed := 0,
                     saved_location := SavedLocation.inJournal,
                     no_save := false, off := 0, body := 5 }]
       cacheLen := 0, journal_len := 20000, bytes_dropped := 0 }
     true 1000 false 777).2.2 rfl⟩

/-! ## v2 per-authority status cache (`router_set_networkstatus_v2`)

The model follows the function's control flow: cache-only guard, parse,
clock-skew check (with its `CLOCK_SKEW` control event), own-status guard,
requested-fingerprint guard, untrusted-authority arm, and the
duplicate/older/replace decision against the in-memory per-authority list.
The observable outputs are the return value, the skew flag, whether the
`CLOCK_SKEW` event fired, and whether `add_networkstatus_to_cache` was
invoked; the in-memory list update itself is not an output of the model. -/

inductive V2Source where
  | fromCache
  | fromDirByFp
  | fromDirAll
  | generated
deriving DecidableEq, BEq

/-- A parsed `networkstatus_v2_t`: authority identity digest, document
digest, publication time. -/
structure V2NS where
  identity : Nat
  ns_digest : Nat
  published_on : Int
deriving DecidableEq

/-- Environment of one `router_set_networkstatus_v2` call: whether we cache
v2 directory info, the parser's result, the clock, whether the document's
identity is our own, and whether it names a recognized v2 authority. -/
structure V2Env where
  cachesV2Info : Bool
  parse : Option V2NS
  now : Int
  isMe : Bool
  trusted : Bool

/-- Observable outcome: return value, the skew latch, whether the
`CLOCK_SKEW` control event was emitted, and whether the document was added
to the cache. -/
structure V2Result where
  ret : Int
  skewed : Bool
  eventClockSkew : Bool
  cached : Bool
deriving DecidableEq

/-- `NETWORKSTATUS_ALLOW_SKEW = 24*60*60`. -/
def NETWORKSTATUS_ALLOW_SKEW : Int := 24 * 60 * 60

/-- The entry of `networkstatus_v2_list` for a given authority identity. -/
def v2Find (lst : List V2NS) (id : Nat) : Option V2NS :=
  lst.find? (fun old => old.identity == id)

/-- `router_set_networkstatus_v2(s, arrived_at, source,
requested_fingerprints)`.  `lst` is the current `networkstatus_v2_list`;
`requested` is the fingerprint list, abstracted to identity digests. -/
def router_set_networkstatus_v2 (env : V2Env) (lst : List V2NS)
    (source : V2Source) (requested : Option (List Nat)) : V2Result :=
  if !env.cachesV2Info then
    { ret := 0, skewed := false, eventClockSkew := false, cached := false }
  else
    match env.parse with
    | none =>
        { ret := -1, skewed := false, eventClockSkew := false,
          cached := false }
    | some ns =>
      let skewed := decide (env.now + NETWORKSTATUS_ALLOW_SKEW <
        ns.published_on)
      if (source = V2Source.fromDirByFp ∨ source = V2Source.fromDirAll) ∧
          env.isMe then
        { ret := 0, skewed := skewed, eventClockSkew := skewed,
          cached := false }
      else
        let requestedDrop : Bool :=
          match requested with
          | some fps =>
              !fps.contains ns.identity && !(source == V2Source.fromDirAll)
          | none => false
        if requestedDrop then
          { ret := 0, skewed := skewed, eventClockSkew := skewed,
            cached := false }
        else if !env.trusted then
          { ret := 0, skewed := skewed, eventClockSkew := skewed,
            cached := !skewed }
        else
          match v2Find lst ns.identity with
          | some old =>
              if old.ns_digest = ns.ns_digest then
                { ret := 0, skewed := skewed, eventClockSkew := skewed,
                  cached := false }
              else if ns.published_on ≤ old.published_on then
                { ret := 0, skewed := skewed, eventClockSkew := skewed,
                  cached := false }
              else
                { ret := 0, skewed := skewed, eventClockSkew := skewed,
                  cached := !skewed }
          | none =>
              { ret := 0, skewed := skewed, eventClockSkew := skewed,
                cached := !skewed }

/-- C9: a v2 status published exactly `now + 86400` is not skewed (no
`CLOCK_SKEW` event; on the normal store path it is cached), while one
published at `now + 86401` or later is marked skewed, fires the `CLOCK_SKEW`
control event, and is never cached. -/
theorem C9_v2_skew_boundary (env : V2Env) (lst : List V2NS)
    (source : V2Source) (requested : Option (List Nat)) (ns : V2NS)
    (hc : env.cachesV2Info = true)
    (hp : env.parse = some ns) :
    (ns.published_on = env.now + 86400 →
      (router_set_networkstatus_v2 env lst source requested).skewed = false ∧
      (router_set_networkstatus_v2 env lst source
        requested).eventClockSkew = false) ∧
    (ns.published_on = env.now + 86400 → env.isMe = false →
      env.trusted = true → requested = none →
      v2Find lst ns.identity = none →
      (router_set_networkstatus_v2 env lst source requested).cached = true) ∧
    (env.now + 86401 ≤ ns.published_on →
      (router_set_networkstatus_v2 env lst source requested).skewed = true ∧
      (router_set_networkstatus_v2 env lst source
        requested).eventClockSkew = true ∧
      (router_set_networkstatus_v2 env lst source requested).cached
        = false) := by
  unfold router_set_networkstatus_v2 NETWORKSTATUS_ALLOW_SKEW
  rw [hc, hp]
  dsimp only
  refine ⟨fun h => ?_, fun h hme htr hreq hfind => ?_, fun h => ?_⟩
  · have hs : decide (env.now + 24 * 60 * 60 < ns.published_on) = false := by
      simp only [decide_eq_false_iff_not]
      omega
    simp only [hs]
    cases hfind : v2Find lst ns.identity <;> (dsimp only; split_ifs <;> simp_all)
  · have hs : decide (env.now + 24 * 60 * 60 < ns.published_on) = false := by
      simp only [decide_eq_false_iff_not]
      omega
    subst hreq
    simp only [hs, hfind, hme]
    split_ifs with h1 h2 <;> simp_all
  · have hs : decide (env.now + 24 * 60 * 60 < ns.published_on) = true := by
      simp only [decide_eq_true_eq]
      omega
    simp only [hs]
    cases hfind : v2Find lst ns.identity <;> (dsimp only; split_ifs <;> simp_all)

/-- The environment of the C9 witness: a recognized authority's status
published 86401 seconds in the future. -/
def c9wNS : V2NS :=
  { identity := 3, ns_digest := 8, published_on := 1000086401 }

/-- C9 witness environment. -/
def c9wEnv : V2Env :=
  { cachesV2Info := true, parse := some c9wNS, now := 1000000000,
    isMe := false, trusted := true }

/-- C9 witness: the skewed document fires the `CLOCK_SKEW` event and is not
cached. -/
theorem C9_witness :
    (router_set_networkstatus_v2 c9wEnv [] V2Source.fromDirByFp
      none).skewed = true ∧
    (router_set_networkstatus_v2 c9wEnv [] V2Source.fromDirByFp
      none).eventClockSkew = true ∧
    (router_set_networkstatus_v2 c9wEnv [] V2Source.fromDirByFp
      none).cached = false :=
  (C9_v2_skew_boundary c9wEnv [] V2Source.fromDirByFp none c9wNS rfl
    rfl).2.2 (by decide)

end TorNS
